import Mathlib

/-!
Verification of the golog leveled-logging library.

The development is a shallow embedding of the Go source (golog.go; the
repository also contains an earlier near-identical revision of the same
file).  Go's process-wide mutable variables (logLevel, logger, the
message queue, the output already written, the bytes written directly to
standard error, the quit-signal flush-barrier channel, the daemon
liveness flag) become the fields of an explicit `LogState` record, and
every function of the source becomes a state-passing Lean function.
External effects are passed in as parameters: the result of the
operating-system file open (`Except OsError Nat`, a stream being an
abstract numeric handle), the wall-clock timestamp already rendered by
the time formatter, and the call-site location captured by runtime stack
introspection.  `fmt.Sprintf` on string arguments is rendered by plain
concatenation.  Channel sends are recorded as list appends or counter
increments; `os.Exit` is recorded in a `FatalOutcome` record.
-/

namespace Golog

/-- Severity levels, `type Level int` in the source. -/
abbrev Level := Int

abbrev DEBUG : Level := 0
abbrev INFO : Level := 1
abbrev WARN : Level := 2
abbrev ERROR : Level := 3
abbrev FATAL : Level := 4
abbrev INVALID : Level := -1

/-- The level-name table `level_string` of the source. -/
def level_string : List String := ["DEBUG", "INFO", "WARN", "ERROR", "FATAL"]

/-- Call-site location captured at envelope construction time. -/
structure Caller where
  filename : String
  line : Int
deriving DecidableEq

/-- The message envelope placed on the delivery queue. -/
structure Message where
  caller : Caller
  message : String
  level : Level
deriving DecidableEq

/-- Destination handle: an open stream (abstract handle number) plus the
optionally retained path it was opened from. -/
structure FileLog where
  writer : Nat
  path : String
deriving DecidableEq

/-- Source `NewFd`: wrap an already-open stream, retaining no path. -/
def NewFd (w : Nat) : FileLog := { writer := w, path := "" }

/-- Errors coming back from the operating system's file-open call. -/
abbrev OsError := String

/-- Source `NewFile`: open `f` for append/create; on success wrap the stream in a
handle that retains the path.  The operating-system open result is the
`osOpen` parameter. -/
def NewFile (f : String) (osOpen : Except OsError Nat) : Except OsError FileLog :=
  match osOpen with
  | .error e => .error e
  | .ok w => .ok { NewFd w with path := f }

/-- The process-wide mutable state of the package, one field per global
variable of the source, plus the observable output streams.  `written`
records the lines the daemon wrote to the current destination's stream,
`stderrOut` the text written directly to standard error, `quitSignals`
the number of sends on the single-slot `quit_signal` flush-barrier
channel, and `daemonCount` the number of daemon tasks ever spawned
(ghost instrumentation used to state daemon uniqueness). -/
structure LogState where
  logLevel : Level
  logger : FileLog
  pfx : String
  queue : List Message
  written : List String
  stderrOut : List String
  quitSignals : Nat
  has_daemon : Bool
  daemonCount : Nat
deriving DecidableEq

/-- Source `SetLogLevel`: replace the global threshold, with no validation. -/
def SetLogLevel (s : LogState) (level : Level) : LogState :=
  { s with logLevel := level }

/-- Source `SetPrefix`: replace the process-wide line prefix string. -/
def SetPfx (s : LogState) (pre : String) : LogState :=
  { s with pfx := pre }

/-- Go `%5s`: right-justify in a field of width 5, padding with spaces on
the left when the string is shorter, leaving it unchanged otherwise. -/
def pad5 (str : String) : String :=
  if 5 ≤ str.length then str
  else String.mk (List.replicate (5 - str.length) ' ') ++ str

/-- Spec-side right justification to width `w` (defined from the spec's
words "right-justified to 5 characters", to be compared with the source's
`%5s` verb). -/
def rjust (w : Nat) (str : String) : String :=
  String.mk (List.replicate (w - str.length) ' ') ++ str

/-- The daemon's `Fprintf` format
`"[%5s @ %s][%s:%d] %s%s\n"` applied to the level name, the rendered
timestamp, the caller location, the prefix and the message text. -/
def formatLine (p ts : String) (msg : Message) (name : String) : String :=
  "[" ++ pad5 name ++ " @ " ++ ts ++ "][" ++ msg.caller.filename ++ ":"
    ++ toString msg.caller.line ++ "] " ++ p ++ msg.message ++ "\n"

/-- Source `level_string[l]` as the Go array index: `some` of the table entry
when the index is in bounds, `none` when the access would fault. -/
def levelName (l : Level) : Option String :=
  if 0 ≤ l then level_string.get? l.toNat else none

/-- One iteration of the daemon body on a dequeued message: look the
level name up in `level_string` (faulting, i.e. `none`, if out of
bounds), write the formatted line to the current destination, and if the
level is FATAL send on the `quit_signal` flush-barrier channel. -/
def writeMessage (s : LogState) (msg : Message) (ts : String) : Option LogState :=
  match levelName msg.level with
  | none => none
  | some name =>
      some { s with
        written := s.written ++ [formatLine s.pfx ts msg name],
        quitSignals := if msg.level = FATAL then s.quitSignals + 1 else s.quitSignals }

/-- One `select` round of the daemon in which a message is available on
the queue: dequeue it and run the per-message body.  `none` when the
queue is empty (the daemon blocks) or the level lookup faults. -/
def daemonStep (s : LogState) (ts : String) : Option LogState :=
  match s.queue with
  | [] => none
  | msg :: rest => writeMessage { s with queue := rest } msg ts

/-- Spawning `go daemon()`: the daemon's first action sets the liveness
flag; `daemonCount` is the ghost count of spawned daemon tasks. -/
def spawnDaemon (s : LogState) : LogState :=
  { s with has_daemon := true, daemonCount := s.daemonCount + 1 }

/-- Source `Start`: spawn a daemon only when the liveness flag says none runs. -/
def Start (s : LogState) : LogState :=
  if !s.has_daemon then spawnDaemon s else s

/-- Source `Fatal` returns no state to its caller; instead it blocks on the
`quit_signal` channel and terminates the process.  This record describes
that outcome. -/
structure FatalOutcome where
  waitsQuitSignal : Bool
  exitCode : Nat
deriving DecidableEq

/-- Source `Fatal`: enqueue a FATAL envelope with no threshold check, then wait
on the flush barrier and exit the process with code 1. -/
def Fatal (s : LogState) (c : Caller) (msg : String) : LogState × FatalOutcome :=
  ({ s with queue := s.queue ++ [{ caller := c, message := msg, level := FATAL }] },
   { waitsQuitSignal := true, exitCode := 1 })

/-- Source `Fatalf`: identical body on the already-rendered format result. -/
def Fatalf (s : LogState) (c : Caller) (rendered : String) : LogState × FatalOutcome :=
  ({ s with queue := s.queue ++ [{ caller := c, message := rendered, level := FATAL }] },
   { waitsQuitSignal := true, exitCode := 1 })

/-- Source `Error`: drop when the threshold exceeds ERROR, else enqueue. -/
def Error (s : LogState) (c : Caller) (msg : String) : LogState :=
  if s.logLevel > ERROR then s
  else { s with queue := s.queue ++ [{ caller := c, message := msg, level := ERROR }] }

/-- Source `Errorf`: identical body on the already-rendered format result. -/
def Errorf (s : LogState) (c : Caller) (rendered : String) : LogState :=
  if s.logLevel > ERROR then s
  else { s with queue := s.queue ++ [{ caller := c, message := rendered, level := ERROR }] }

/-- Source `Warn`: drop when the threshold exceeds WARN, else enqueue. -/
def Warn (s : LogState) (c : Caller) (msg : String) : LogState :=
  if s.logLevel > WARN then s
  else { s with queue := s.queue ++ [{ caller := c, message := msg, level := WARN }] }

/-- Source `Warnf`: identical body on the already-rendered format result. -/
def Warnf (s : LogState) (c : Caller) (rendered : String) : LogState :=
  if s.logLevel > WARN then s
  else { s with queue := s.queue ++ [{ caller := c, message := rendered, level := WARN }] }

/-- Source `Info`: drop when the threshold exceeds INFO, else enqueue. -/
def Info (s : LogState) (c : Caller) (msg : String) : LogState :=
  if s.logLevel > INFO then s
  else { s with queue := s.queue ++ [{ caller := c, message := msg, level := INFO }] }

/-- Source `Infof`: identical body on the already-rendered format result. -/
def Infof (s : LogState) (c : Caller) (rendered : String) : LogState :=
  if s.logLevel > INFO then s
  else { s with queue := s.queue ++ [{ caller := c, message := rendered, level := INFO }] }

/-- Source `Debug`: drop when the threshold exceeds DEBUG, else enqueue. -/
def Debug (s : LogState) (c : Caller) (msg : String) : LogState :=
  if s.logLevel > DEBUG then s
  else { s with queue := s.queue ++ [{ caller := c, message := msg, level := DEBUG }] }

/-- Source `Debugf`: identical body on the already-rendered format result. -/
def Debugf (s : LogState) (c : Caller) (rendered : String) : LogState :=
  if s.logLevel > DEBUG then s
  else { s with queue := s.queue ++ [{ caller := c, message := rendered, level := DEBUG }] }

/-- The text `Open` writes to standard error on failure,
`Sprintf("Failed to open file %s: %s", f, err)`. -/
def openFailMsg (f e : String) : String :=
  "Failed to open file " ++ f ++ ": " ++ e

/-- Source `Open`: open the path; on failure report to standard error and return
the error; on success swap the current destination and emit "Log ready."
through the normal pipeline (`Infof`; `c` is the call site it captures). -/
def Open (s : LogState) (f : String) (osOpen : Except OsError Nat) (c : Caller) :
    Except OsError Unit × LogState :=
  match NewFile f osOpen with
  | .error e => (.error e, { s with stderrOut := s.stderrOut ++ [openFailMsg f e] })
  | .ok fl => (.ok (), Infof { s with logger := fl } c "Log ready.")

/-- Source `OpenFd`: swap the current destination to a pre-opened stream. -/
def OpenFd (s : LogState) (fd : Nat) : LogState :=
  { s with logger := NewFd fd }

/-- Source `Sprintf("Reopen log file %s: %s", path, err)` used by `Rotate`. -/
def reopenErrMsg (p e : String) : String :=
  "Reopen log file " ++ p ++ ": " ++ e

/-- Source `Sprintf("Reopened log file %s", path)` used by `Rotate`. -/
def reopenOkMsg (p : String) : String :=
  "Reopened log file " ++ p

/-- Source `Rotate`: sync the current stream (effect swallowed); when a path is
retained, reopen it (`osOpen` is the operating-system result): on failure
log an ERROR and return the error, on success log an INFO confirmation
and swap in a new handle retaining the same path.  When no path is
retained this is a no-op returning success. -/
def Rotate (s : LogState) (osOpen : Except OsError Nat) (c : Caller) :
    Except OsError Unit × LogState :=
  if s.logger.path ≠ "" then
    match osOpen with
    | .error e => (.error e, Errorf s c (reopenErrMsg s.logger.path e))
    | .ok newfd =>
        let s1 := Infof s c (reopenOkMsg s.logger.path)
        (.ok (), { s1 with logger := { NewFd newfd with path := s.logger.path } })
  else (.ok (), s)

/-- Embedding of Go `strings.ToUpper` for ASCII input: character-wise
uppercasing of the string. -/
def strToUpper (str : String) : String :=
  String.mk (str.data.map Char.toUpper)

/-- Source `ToLevel`'s range loop over `level_string` with its running index. -/
def toLevelAux : List String → Level → String → Level
  | [], _, _ => -1
  | name :: rest, l, str => if str = name then l else toLevelAux rest (l + 1) str

/-- Source `ToLevel`: uppercase the input, then exact-match against the level
name table, returning the index on a hit and -1 otherwise. -/
def ToLevel (str : String) : Level :=
  toLevelAux level_string 0 (strToUpper str)

/-- All envelopes in a queue carry a level indexing `level_string` in
bounds. -/
def wfLevels (q : List Message) : Prop :=
  ∀ m ∈ q, 0 ≤ m.level ∧ m.level ≤ 4

instance (q : List Message) : Decidable (wfLevels q) := by
  unfold wfLevels; infer_instance

/-- A concrete call-site location used by the witness theorems. -/
def wCaller : Caller := { filename := "main.go", line := 10 }

/-- A concrete INFO envelope used by the witness theorems. -/
def sampleMsg : Message := { caller := wCaller, message := "hi", level := INFO }

/-- A concrete state with the default stream-only destination (no retained
path) and a live daemon, used by the witness theorems. -/
def baseState : LogState :=
  { logLevel := INFO, logger := { writer := 0, path := "" }, pfx := "",
    queue := [], written := [], stderrOut := [], quitSignals := 0,
    has_daemon := true, daemonCount := 1 }

/-- A concrete state whose destination retains a path and whose daemon
liveness flag is off, used by the witness theorems. -/
def rotState : LogState :=
  { logLevel := INFO, logger := { writer := 3, path := "app.log" }, pfx := "",
    queue := [], written := [], stderrOut := [], quitSignals := 0,
    has_daemon := false, daemonCount := 0 }

/-- The base state with one INFO envelope queued. -/
def queuedState : LogState := { baseState with queue := [sampleMsg] }

/-- The state the daemon reaches from `queuedState` after one step. -/
def queuedStateAfter : LogState :=
  { baseState with
    queue := ([] : List Message),
    written := ["[ INFO @ Jan 2 15:04:05.000][main.go:10] hi\n"] }

/-- Utility: the source's drop test `threshold > L` and the spec's
delivery condition `L >= threshold` select opposite branches. -/
theorem gt_if_flip {α : Sort u} (a b : Level) (x y : α) :
    (if a > b then x else y) = if a ≤ b then y else x := by
  by_cases h : a > b
  · rw [if_pos h, if_neg (not_le.2 h)]
  · rw [if_neg h, if_pos (not_lt.1 h)]

/-- Utility: the source's `%5s` padding agrees with the spec's
right-justification to width 5 on every string. -/
theorem pad5_eq_rjust (str : String) : pad5 str = rjust 5 str := by
  unfold pad5 rjust
  split_ifs with h
  · rw [Nat.sub_eq_zero_of_le h]
    rfl
  · rfl

/-- Utility: a level between 0 and 4 indexes the level-name table in
bounds. -/
theorem levelName_isSome_of_wf (l : Level) (h0 : 0 ≤ l) (h4 : l ≤ 4) :
    (levelName l).isSome = true := by
  unfold levelName
  rw [if_pos h0]
  interval_cases l <;> decide

/-- Claim C1: `Fatal` and `Fatalf` always enqueue a FATAL envelope with no
threshold check (the equations hold for every current threshold value),
then block the caller on the quit-signal flush barrier and terminate the
process with exit code 1; the daemon's processing of a FATAL envelope
sends a signal on the flush-barrier channel after writing it. -/
theorem fatal_flush_barrier (s : LogState) (c : Caller) (m ts : String) :
    (Fatal s c m).1.queue = s.queue ++ [{ caller := c, message := m, level := FATAL }] ∧
    (Fatalf s c m).1.queue = s.queue ++ [{ caller := c, message := m, level := FATAL }] ∧
    (Fatal s c m).2.waitsQuitSignal = true ∧ (Fatal s c m).2.exitCode = 1 ∧
    (Fatalf s c m).2.waitsQuitSignal = true ∧ (Fatalf s c m).2.exitCode = 1 ∧
    (writeMessage s { caller := c, message := m, level := FATAL } ts).map
        LogState.quitSignals = some (s.quitSignals + 1) := by
  have h4 : levelName FATAL = some "FATAL" := by decide
  refine ⟨rfl, rfl, rfl, rfl, rfl, rfl, ?_⟩
  simp [writeMessage, h4]

/-- Claim C2: every non-FATAL emit call with level L enqueues its envelope
exactly when L is at least the current global threshold, and when L is
below the threshold the call leaves the state completely unchanged. -/
theorem emit_threshold_filter (s : LogState) (c : Caller) (m : String) :
    (Debug s c m = if s.logLevel ≤ DEBUG then
      { s with queue := s.queue ++ [{ caller := c, message := m, level := DEBUG }] } else s) ∧
    (Debugf s c m = if s.logLevel ≤ DEBUG then
      { s with queue := s.queue ++ [{ caller := c, message := m, level := DEBUG }] } else s) ∧
    (Info s c m = if s.logLevel ≤ INFO then
      { s with queue := s.queue ++ [{ caller := c, message := m, level := INFO }] } else s) ∧
    (Infof s c m = if s.logLevel ≤ INFO then
      { s with queue := s.queue ++ [{ caller := c, message := m, level := INFO }] } else s) ∧
    (Warn s c m = if s.logLevel ≤ WARN then
      { s with queue := s.queue ++ [{ caller := c, message := m, level := WARN }] } else s) ∧
    (Warnf s c m = if s.logLevel ≤ WARN then
      { s with queue := s.queue ++ [{ caller := c, message := m, level := WARN }] } else s) ∧
    (Error s c m = if s.logLevel ≤ ERROR then
      { s with queue := s.queue ++ [{ caller := c, message := m, level := ERROR }] } else s) ∧
    (Errorf s c m = if s.logLevel ≤ ERROR then
      { s with queue := s.queue ++ [{ caller := c, message := m, level := ERROR }] } else s) := by
  refine ⟨?_, ?_, ?_, ?_, ?_, ?_, ?_, ?_⟩ <;>
    simp only [Debug, Debugf, Info, Infof, Warn, Warnf, Error, Errorf] <;>
    exact gt_if_flip _ _ _ _

/-- Claim C3: every line the daemon writes is exactly a bracketed header
with the level name right-justified to 5 characters, " @ ", the rendered
timestamp, a second bracketed segment with the caller's base filename and
line number, a space, the prefix, the message text, and a terminating
newline. -/
theorem daemon_line_format (s s' : LogState) (msg : Message) (rest : List Message)
    (ts : String) (hq : s.queue = msg :: rest) (hstep : daemonStep s ts = some s') :
    ∃ name, levelName msg.level = some name ∧
      s'.written = s.written ++
        ["[" ++ rjust 5 name ++ " @ " ++ ts ++ "][" ++ msg.caller.filename ++ ":"
          ++ toString msg.caller.line ++ "] " ++ s.pfx ++ msg.message ++ "\n"] := by
  have hstep' : writeMessage { s with queue := rest } msg ts = some s' := by
    simpa [daemonStep, hq] using hstep
  cases hl : levelName msg.level with
  | none => simp [writeMessage, hl] at hstep'
  | some name =>
      refine ⟨name, rfl, ?_⟩
      simp only [writeMessage, hl, Option.some.injEq] at hstep'
      rw [← hstep']
      simp [formatLine, pad5_eq_rjust]

/-- Witness for C3 at a concrete queued INFO message. -/
theorem daemon_line_format_witness :
    ∃ name, levelName sampleMsg.level = some name ∧
      queuedStateAfter.written = queuedState.written ++
        ["[" ++ rjust 5 name ++ " @ " ++ "Jan 2 15:04:05.000" ++ "]["
          ++ sampleMsg.caller.filename ++ ":" ++ toString sampleMsg.caller.line ++ "] "
          ++ queuedState.pfx ++ sampleMsg.message ++ "\n"] :=
  daemon_line_format queuedState queuedStateAfter sampleMsg []
    "Jan 2 15:04:05.000" rfl (by decide)

/-- Claim C4: `ToLevel` matches its input case-insensitively and exactly
against the five level names with no partial matching: any string whose
uppercasing is one of the five names maps to the corresponding level, and
every other string maps to INVALID(-1); in particular "debug" parses to
DEBUG and "trace" to INVALID. -/
theorem toLevel_exact_case_insensitive (str : String) :
    ToLevel str = (if strToUpper str = "DEBUG" then DEBUG
      else if strToUpper str = "INFO" then INFO
      else if strToUpper str = "WARN" then WARN
      else if strToUpper str = "ERROR" then ERROR
      else if strToUpper str = "FATAL" then FATAL
      else INVALID) ∧
    ToLevel "debug" = DEBUG ∧ ToLevel "trace" = INVALID := by
  refine ⟨?_, by decide, by decide⟩
  simp only [ToLevel, level_string, toLevelAux]
  split_ifs <;> norm_num

/-- Claim C5: when `Open` fails it reports the failure on the process's
standard error stream, returns the underlying error, and leaves the
current destination unchanged; when it succeeds it swaps the destination
to the new path-retaining handle and emits "Log ready." through the
normal pipeline. -/
theorem open_reports_or_swaps (s : LogState) (f : String) (c : Caller)
    (e : OsError) (w : Nat) :
    Open s f (.error e) c
      = (.error e, { s with stderrOut := s.stderrOut ++ [openFailMsg f e] }) ∧
    (Open s f (.error e) c).2.logger = s.logger ∧
    Open s f (.ok w) c
      = (.ok (), Infof { s with logger := { writer := w, path := f } } c "Log ready.") ∧
    (Open s f (.ok w) c).2.logger = { writer := w, path := f } := by
  refine ⟨rfl, rfl, rfl, ?_⟩
  show (Infof { s with logger := { writer := w, path := f } } c "Log ready.").logger = _
  unfold Infof
  split_ifs <;> rfl

/-- Claim C6: on a path-backed destination, a failing reopen makes
`Rotate` log an ERROR through the normal pipeline and return the error
with the old destination left current; a successful reopen logs an INFO
confirmation and swaps in a new handle retaining the same path. -/
theorem rotate_path_backed (s : LogState) (c : Caller) (e : OsError) (w : Nat)
    (h : s.logger.path ≠ "") :
    Rotate s (.error e) c = (.error e, Errorf s c (reopenErrMsg s.logger.path e)) ∧
    (Rotate s (.error e) c).2.logger = s.logger ∧
    Rotate s (.ok w) c
      = (.ok (), { Infof s c (reopenOkMsg s.logger.path) with
          logger := { writer := w, path := s.logger.path } }) ∧
    (Rotate s (.ok w) c).2.logger.path = s.logger.path := by
  have h1 : Rotate s (.error e) c
      = (.error e, Errorf s c (reopenErrMsg s.logger.path e)) := by
    unfold Rotate
    rw [if_pos h]
  have h2 : Rotate s (.ok w) c
      = (.ok (), { Infof s c (reopenOkMsg s.logger.path) with
          logger := { writer := w, path := s.logger.path } }) := by
    unfold Rotate
    rw [if_pos h]
    rfl
  refine ⟨h1, ?_, h2, ?_⟩
  · rw [h1]
    unfold Errorf
    split_ifs <;> rfl
  · rw [h2]

/-- Witness for C6 at a concrete path-backed state. -/
theorem rotate_path_backed_witness :
    rotState.logger.path ≠ "" ∧
    Rotate rotState (.error "EACCES") wCaller
      = (.error "EACCES",
         Errorf rotState wCaller (reopenErrMsg rotState.logger.path "EACCES")) ∧
    (Rotate rotState (.ok 7) wCaller).2.logger.path = rotState.logger.path :=
  have h := rotate_path_backed rotState wCaller "EACCES" 7 (by decide)
  ⟨by decide, h.1, h.2.2.2⟩

/-- Claim C7: `Rotate` on a destination with no retained path is a no-op
returning success, leaving the whole state unchanged. -/
theorem rotate_stream_only_noop (s : LogState) (osOpen : Except OsError Nat)
    (c : Caller) (h : s.logger.path = "") :
    Rotate s osOpen c = (.ok (), s) := by
  unfold Rotate
  rw [if_neg (not_ne_iff.2 h)]

/-- Witness for C7 at the default stream-only state. -/
theorem rotate_stream_only_noop_witness :
    baseState.logger.path = "" ∧ Rotate baseState (.ok 5) wCaller = (.ok (), baseState) :=
  ⟨rfl, rotate_stream_only_noop baseState (.ok 5) wCaller rfl⟩

/-- Claim C8: `Start` while the daemon-liveness flag is set is a no-op
spawning nothing; a new daemon (raising the ghost spawn count) is spawned
exactly when the flag says none is running. -/
theorem start_daemon_unique (s : LogState) :
    (s.has_daemon = true → Start s = s) ∧
    (s.has_daemon = false →
      Start s = { s with has_daemon := true, daemonCount := s.daemonCount + 1 }) := by
  constructor <;> intro h <;> simp [Start, spawnDaemon, h]

/-- Witness for C8 at concrete states with the flag set and unset. -/
theorem start_daemon_unique_witness :
    Start baseState = baseState ∧
    Start rotState
      = { rotState with has_daemon := true, daemonCount := rotState.daemonCount + 1 } :=
  ⟨(start_daemon_unique baseState).1 rfl, (start_daemon_unique rotState).2 rfl⟩

/-- Claim C9: every envelope constructible through the public emit API
carries a level among the five valid ones (0 through 4), so on any queue
built from such calls the daemon's level-name table lookup is in bounds
and its step never faults. -/
theorem api_levels_in_bounds (s : LogState) (c : Caller) (m ts : String)
    (hwf : wfLevels s.queue) :
    wfLevels (Debug s c m).queue ∧ wfLevels (Debugf s c m).queue ∧
    wfLevels (Info s c m).queue ∧ wfLevels (Infof s c m).queue ∧
    wfLevels (Warn s c m).queue ∧ wfLevels (Warnf s c m).queue ∧
    wfLevels (Error s c m).queue ∧ wfLevels (Errorf s c m).queue ∧
    wfLevels (Fatal s c m).1.queue ∧ wfLevels (Fatalf s c m).1.queue ∧
    (s.queue ≠ [] → (daemonStep s ts).isSome = true) := by
  have hext : ∀ l : Level, 0 ≤ l → l ≤ 4 →
      wfLevels (s.queue ++ [{ caller := c, message := m, level := l }]) := by
    intro l h0 h4 x hx
    rcases List.mem_append.1 hx with hx | hx
    · exact hwf x hx
    · rw [List.mem_singleton] at hx
      subst hx
      exact ⟨h0, h4⟩
  refine ⟨?_, ?_, ?_, ?_, ?_, ?_, ?_, ?_, ?_, ?_, ?_⟩
  · unfold Debug
    split_ifs
    · exact hwf
    · exact hext DEBUG (by norm_num) (by norm_num)
  · unfold Debugf
    split_ifs
    · exact hwf
    · exact hext DEBUG (by norm_num) (by norm_num)
  · unfold Info
    split_ifs
    · exact hwf
    · exact hext INFO (by norm_num) (by norm_num)
  · unfold Infof
    split_ifs
    · exact hwf
    · exact hext INFO (by norm_num) (by norm_num)
  · unfold Warn
    split_ifs
    · exact hwf
    · exact hext WARN (by norm_num) (by norm_num)
  · unfold Warnf
    split_ifs
    · exact hwf
    · exact hext WARN (by norm_num) (by norm_num)
  · unfold Error
    split_ifs
    · exact hwf
    · exact hext ERROR (by norm_num) (by norm_num)
  · unfold Errorf
    split_ifs
    · exact hwf
    · exact hext ERROR (by norm_num) (by norm_num)
  · exact hext FATAL (by norm_num) (by norm_num)
  · exact hext FATAL (by norm_num) (by norm_num)
  · intro hne
    cases hq : s.queue with
    | nil => exact absurd hq hne
    | cons msg rest =>
        have hm : 0 ≤ msg.level ∧ msg.level ≤ 4 := by
          refine hwf msg ?_
          rw [hq]
          exact List.mem_cons_self _ _
        obtain ⟨name, hname⟩ :=
          Option.isSome_iff_exists.1 (levelName_isSome_of_wf msg.level hm.1 hm.2)
        simp [daemonStep, hq, writeMessage, hname]

/-- Witness for C9 at a concrete well-formed nonempty queue. -/
theorem api_levels_in_bounds_witness :
    wfLevels queuedState.queue ∧ (daemonStep queuedState "ts").isSome = true :=
  ⟨by decide,
   (api_levels_in_bounds queuedState wCaller "x" "ts"
      (by decide)).2.2.2.2.2.2.2.2.2.2 (by decide)⟩

/-- Claim C10: `SetLogLevel` stores its argument with no validation, and
with the threshold set to the sentinel INVALID(-1) every emit call at
every level, including Debug, passes the filter and is enqueued. -/
theorem setLogLevel_no_validation (s : LogState) (l : Level) (c : Caller) (m : String) :
    SetLogLevel s l = { s with logLevel := l } ∧
    (Debug (SetLogLevel s INVALID) c m).queue
      = s.queue ++ [{ caller := c, message := m, level := DEBUG }] ∧
    (Info (SetLogLevel s INVALID) c m).queue
      = s.queue ++ [{ caller := c, message := m, level := INFO }] ∧
    (Warn (SetLogLevel s INVALID) c m).queue
      = s.queue ++ [{ caller := c, message := m, level := WARN }] ∧
    (Error (SetLogLevel s INVALID) c m).queue
      = s.queue ++ [{ caller := c, message := m, level := ERROR }] ∧
    (Fatal (SetLogLevel s INVALID) c m).1.queue
      = s.queue ++ [{ caller := c, message := m, level := FATAL }] := by
  refine ⟨rfl, ?_, ?_, ?_, ?_, rfl⟩ <;>
    norm_num [SetLogLevel, Debug, Info, Warn, Error]

end Golog
